import Mathlib

/-!
# gonutz/mixer, `dsound/dsound_wrapper.c`

A shallow embedding of the DirectSound wrapper and the properties its
specification states about it.

## The embedding

* The three `static` handles of the C file are the fields `DirectSoundObject`,
  `PrimarySoundBuffer` and `GlobalSoundBuffer` of `World`; a pointer is a
  natural number and the null pointer is `0`.
* Every call that leaves the C file (Win32 and COM method calls) is recorded, in
  program order and with its arguments, in `World.calls`.  A COM method call
  `obj->lpVtbl->M(obj, ...)` is recorded with the receiver as first argument.
* The platform is a `Device`: for every kind of call a function that maps the
  log of all calls made so far (the current one is its last entry) to what the
  call returns.  Nothing is assumed about these functions, so a theorem that
  quantifies over `Device` holds for every behaviour of the platform, also one
  that depends on the whole history.
* Memory is one flat byte store `Nat → Nat`; `char* data` and the two locked
  regions are addresses in it.  Only the two copy loops write to it.
* `HRESULT` is `Int`, `SUCCEEDED(hr)` is `0 ≤ hr`.  `DWORD` values are natural
  numbers and arithmetic on them is reduced modulo `2^32` explicitly.
* The `int* errorContext` out-parameter is written on every path before the
  function returns, so its final value is returned next to the status.
* A device may answer a creating call with a success code and a null object.
  The C code would then call a method through a null pointer; the embedding
  logs such a call like any other one, with receiver `0`.  Where the difference
  matters the theorems ask for `Device.HandsOutObjects`.
-/

namespace DSound

/-! ## Constants of `dsound_wrapper.h` -/

abbrev NoError : Int := 0
abbrev LoadLibraryFailed : Int := 1
abbrev DirectSoundCreateMissing : Int := 2
abbrev DirectSoundCreateFailed : Int := 3
abbrev SetCooperativeLevelFailed : Int := 4
abbrev CreatePrimarySoundBufferFailed : Int := 5
abbrev PrimarySetFormatFailed : Int := 6
abbrev CreateSecondarySoundBufferFailed : Int := 7
abbrev PlayingSoundBufferFailed : Int := 8
abbrev GlobalSoundBufferNotSet : Int := 9
abbrev GetCurrentPositionFailed : Int := 10
abbrev LockFailed : Int := 11
abbrev UnlockFailed : Int := 12

/-! ## Constants of the platform headers (`windows.h`, `dsound.h`) -/

/-- Status code `DS_OK` of the platform header. -/
abbrev DS_OK : Int := 0

/-- Modelled from the spec: the failing status `DSERR_GENERIC` that the wrapper
returns when no device status is available.  The platform header defines it as
`E_FAIL`, the bit pattern `0x80004005` read as a signed 32-bit `HRESULT`. -/
abbrev DSERR_GENERIC : Int := -2147467259

/-- The platform test `SUCCEEDED(hr)`: an `HRESULT` is a success code when it
is not negative. -/
abbrev SUCCEEDED (hr : Int) : Prop := 0 ≤ hr

/-- Cooperative level `DSSCL_PRIORITY` of the platform header. -/
abbrev DSSCL_PRIORITY : Nat := 2
/-- Buffer capability flag `DSBCAPS_PRIMARYBUFFER` of the platform header. -/
abbrev DSBCAPS_PRIMARYBUFFER : Nat := 0x1
/-- Buffer capability flag `DSBCAPS_GLOBALFOCUS` of the platform header. -/
abbrev DSBCAPS_GLOBALFOCUS : Nat := 0x8000
/-- Buffer capability flag `DSBCAPS_GETCURRENTPOSITION2` of the platform header. -/
abbrev DSBCAPS_GETCURRENTPOSITION2 : Nat := 0x10000
/-- Format tag `WAVE_FORMAT_PCM` of the platform header. -/
abbrev WAVE_FORMAT_PCM : Nat := 1
/-- Play flag `DSBPLAY_LOOPING` of the platform header. -/
abbrev DSBPLAY_LOOPING : Nat := 1

/-- Number of values of a `DWORD` (32-bit unsigned). -/
abbrev DWORD_MOD : Nat := 4294967296
/-- Number of values of a `WORD` (16-bit unsigned). -/
abbrev WORD_MOD : Nat := 65536

/-! ## Data passed to the device -/

/-- The fields of `WAVEFORMATEX`; the initializer `{0}` zeroes all of them. -/
structure WAVEFORMATEX where
  wFormatTag : Nat
  nChannels : Nat
  nSamplesPerSec : Nat
  nAvgBytesPerSec : Nat
  nBlockAlign : Nat
  wBitsPerSample : Nat
  cbSize : Nat
  deriving DecidableEq

/-- The fields of `DSBUFFERDESC` that the wrapper sets to something other than
zero or to the size of the structure itself; `lpwfxFormat` is the format the
pointer refers to, `none` for a null pointer. -/
structure DSBUFFERDESC where
  dwFlags : Nat
  dwBufferBytes : Nat
  lpwfxFormat : Option WAVEFORMATEX
  deriving DecidableEq

/-- A call that leaves the C file, with its arguments. -/
inductive Call where
  | LoadLibraryA (name : String)
  | GetProcAddress (module : Nat) (name : String)
  | DirectSoundCreate (entry : Nat) (deviceGuid : Nat) (outer : Nat)
  | GetDesktopWindow
  | SetCooperativeLevel (directSound : Nat) (hwnd : Nat) (level : Nat)
  | CreateSoundBuffer (directSound : Nat) (desc : DSBUFFERDESC) (outer : Nat)
  | SetFormat (buffer : Nat) (format : WAVEFORMATEX)
  | Release (obj : Nat)
  | Play (buffer : Nat) (reserved1 : Nat) (priority : Nat) (flags : Nat)
  | Stop (buffer : Nat)
  | GetCurrentPosition (buffer : Nat)
  | Lock (buffer : Nat) (offset : Nat) (bytes : Nat) (flags : Nat)
  | Unlock (buffer : Nat) (region1 : Nat) (region1Size : Nat)
      (region2 : Nat) (region2Size : Nat)
  deriving DecidableEq

/-- What a creating call returns: the status and the object pointer it writes
to its out-parameter. -/
structure CreateResult where
  hr : Int
  object : Nat
  deriving DecidableEq

/-- What `GetCurrentPosition` returns: the status and what it writes to each
of its two out-parameters, `none` when it leaves the parameter as it was. -/
structure PositionResult where
  hr : Int
  playCursor : Option Nat
  writeCursor : Option Nat
  deriving DecidableEq

/-- What `Lock` returns: the status and the two regions it writes to its
out-parameters. -/
structure LockResult where
  hr : Int
  region1 : Nat
  region1Size : Nat
  region2 : Nat
  region2Size : Nat
  deriving DecidableEq

/-- The platform.  Every field answers one kind of call from the log of all
calls made so far, the call being answered last. -/
structure Device where
  LoadLibraryA : List Call → Nat
  GetProcAddress : List Call → Nat
  DirectSoundCreate : List Call → CreateResult
  GetDesktopWindow : List Call → Nat
  SetCooperativeLevel : List Call → Int
  CreateSoundBuffer : List Call → CreateResult
  SetFormat : List Call → Int
  Play : List Call → Int
  Stop : List Call → Int
  GetCurrentPosition : List Call → PositionResult
  Lock : List Call → LockResult
  Unlock : List Call → Int

/-! ## State -/

/-- The state the wrapper runs in: its three static handles, the log of the
calls it has made, and memory. -/
structure World where
  DirectSoundObject : Nat
  PrimarySoundBuffer : Nat
  GlobalSoundBuffer : Nat
  calls : List Call
  mem : Nat → Nat

/-- Append a call to the log. -/
def World.call (w : World) (c : Call) : World :=
  { w with calls := w.calls ++ [c] }

/-- What a wrapper function hands back: the returned `HRESULT`, the value left
in `*errorContext`, and the state. -/
structure Ret where
  result : Int
  errorContext : Int
  world : World

/-- What `getPlayAndWriteCursors` hands back: as `Ret`, with the values left in
`*playCursor` and `*writeCursor`. -/
structure CursorRet where
  result : Int
  errorContext : Int
  playCursor : Nat
  writeCursor : Nat
  world : World

/-! ## `initDirectSound` -/

/-- The `WAVEFORMATEX` that `initDirectSound` fills in (lines 65-71).
`nBlockAlign` is a `WORD`, `nAvgBytesPerSec` a `DWORD`. -/
def waveFormat (samplesPerSecond : Nat) : WAVEFORMATEX :=
  let wFormatTag := WAVE_FORMAT_PCM
  let nChannels := 2
  let nSamplesPerSec := samplesPerSecond
  let wBitsPerSample := 16
  let nBlockAlign := ((nChannels * wBitsPerSample) / 8) % WORD_MOD
  let nAvgBytesPerSec := (nSamplesPerSec * nBlockAlign) % DWORD_MOD
  { wFormatTag := wFormatTag
    nChannels := nChannels
    nSamplesPerSec := nSamplesPerSec
    nAvgBytesPerSec := nAvgBytesPerSec
    nBlockAlign := nBlockAlign
    wBitsPerSample := wBitsPerSample
    cbSize := 0 }

/-- The description of the primary buffer (lines 49-52). -/
def primaryBufferDescription : DSBUFFERDESC :=
  { dwFlags := DSBCAPS_PRIMARYBUFFER
    dwBufferBytes := 0
    lpwfxFormat := none }

/-- The description of the secondary buffer (lines 79-90); `dwBufferBytes` is a
`DWORD`. -/
def secondaryBufferDescription (samplesPerSecond : Nat) : DSBUFFERDESC :=
  { dwFlags := DSBCAPS_GETCURRENTPOSITION2 ||| DSBCAPS_GLOBALFOCUS
    dwBufferBytes := (2 * (waveFormat samplesPerSecond).nAvgBytesPerSec) % DWORD_MOD
    lpwfxFormat := some (waveFormat samplesPerSecond) }

/-- Function `initDirectSound` of the wrapper (lines 12-106). -/
def initDirectSound (dev : Device) (w : World) (samplesPerSecond : Nat) : Ret :=
  let w := w.call (.LoadLibraryA "dsound.dll")
  let directSoundLib := dev.LoadLibraryA w.calls
  if directSoundLib = 0 then ⟨DSERR_GENERIC, LoadLibraryFailed, w⟩ else
  let w := w.call (.GetProcAddress directSoundLib "DirectSoundCreate")
  let DirectSoundCreate := dev.GetProcAddress w.calls
  if DirectSoundCreate = 0 then ⟨DSERR_GENERIC, DirectSoundCreateMissing, w⟩ else
  let w := w.call (.DirectSoundCreate DirectSoundCreate 0 0)
  let created := dev.DirectSoundCreate w.calls
  if ¬ SUCCEEDED created.hr then ⟨created.hr, DirectSoundCreateFailed, w⟩ else
  let directSound := created.object
  let w := { w with DirectSoundObject := directSound }
  let w := w.call .GetDesktopWindow
  let hwnd := dev.GetDesktopWindow w.calls
  let w := w.call (.SetCooperativeLevel directSound hwnd DSSCL_PRIORITY)
  let result := dev.SetCooperativeLevel w.calls
  if ¬ SUCCEEDED result then ⟨result, SetCooperativeLevelFailed, w⟩ else
  let w := w.call (.CreateSoundBuffer directSound primaryBufferDescription 0)
  let created := dev.CreateSoundBuffer w.calls
  if ¬ SUCCEEDED created.hr then ⟨created.hr, CreatePrimarySoundBufferFailed, w⟩ else
  let primaryBuffer := created.object
  let w := { w with PrimarySoundBuffer := primaryBuffer }
  let w := w.call (.SetFormat primaryBuffer (waveFormat samplesPerSecond))
  let result := dev.SetFormat w.calls
  if ¬ SUCCEEDED result then ⟨result, PrimarySetFormatFailed, w⟩ else
  let w := w.call
    (.CreateSoundBuffer directSound (secondaryBufferDescription samplesPerSecond) 0)
  let created := dev.CreateSoundBuffer w.calls
  if ¬ SUCCEEDED created.hr then ⟨created.hr, CreateSecondarySoundBufferFailed, w⟩ else
  let secondaryBuffer := created.object
  let w := { w with GlobalSoundBuffer := secondaryBuffer }
  ⟨DS_OK, NoError, w⟩

/-! ## `closeDirectSound` -/

/-- The three expansions of the macro `ReleaseObject(obj)` (line 108), one for
each static handle: `if (obj) {obj->lpVtbl->Release(obj); obj = 0;}`. -/
def ReleaseObject_GlobalSoundBuffer (w : World) : World :=
  if w.GlobalSoundBuffer ≠ 0 then
    { w.call (.Release w.GlobalSoundBuffer) with GlobalSoundBuffer := 0 }
  else w

/-- See `ReleaseObject_GlobalSoundBuffer`. -/
def ReleaseObject_PrimarySoundBuffer (w : World) : World :=
  if w.PrimarySoundBuffer ≠ 0 then
    { w.call (.Release w.PrimarySoundBuffer) with PrimarySoundBuffer := 0 }
  else w

/-- See `ReleaseObject_GlobalSoundBuffer`. -/
def ReleaseObject_DirectSoundObject (w : World) : World :=
  if w.DirectSoundObject ≠ 0 then
    { w.call (.Release w.DirectSoundObject) with DirectSoundObject := 0 }
  else w

/-- Function `closeDirectSound` of the wrapper (lines 110-114).  The value
`Release` returns is not read, so the device does not appear. -/
def closeDirectSound (w : World) : World :=
  let w := ReleaseObject_GlobalSoundBuffer w
  let w := ReleaseObject_PrimarySoundBuffer w
  ReleaseObject_DirectSoundObject w

/-! ## `startSound`, `stopSound`, `getPlayAndWriteCursors` -/

/-- Function `startSound` of the wrapper (lines 116-132). -/
def startSound (dev : Device) (w : World) : Ret :=
  if w.GlobalSoundBuffer = 0 then ⟨DSERR_GENERIC, GlobalSoundBufferNotSet, w⟩ else
  let w := w.call (.Play w.GlobalSoundBuffer 0 0 DSBPLAY_LOOPING)
  let result := dev.Play w.calls
  if ¬ SUCCEEDED result then ⟨result, PlayingSoundBufferFailed, w⟩ else
  ⟨DS_OK, NoError, w⟩

/-- Function `stopSound` of the wrapper (lines 134-150). -/
def stopSound (dev : Device) (w : World) : Ret :=
  if w.GlobalSoundBuffer = 0 then ⟨DSERR_GENERIC, GlobalSoundBufferNotSet, w⟩ else
  let w := w.call (.Stop w.GlobalSoundBuffer)
  let result := dev.Stop w.calls
  if ¬ SUCCEEDED result then ⟨result, PlayingSoundBufferFailed, w⟩ else
  ⟨DS_OK, NoError, w⟩

/-- Function `getPlayAndWriteCursors` of the wrapper (lines 152-172).
`playCursor` and `writeCursor` are the values the two out-parameters hold when
the function is called. -/
def getPlayAndWriteCursors (dev : Device) (w : World) (playCursor writeCursor : Nat) :
    CursorRet :=
  if w.GlobalSoundBuffer = 0 then
    ⟨DSERR_GENERIC, GlobalSoundBufferNotSet, playCursor, writeCursor, w⟩ else
  let w := w.call (.GetCurrentPosition w.GlobalSoundBuffer)
  let pos := dev.GetCurrentPosition w.calls
  let playCursor := pos.playCursor.getD playCursor
  let writeCursor := pos.writeCursor.getD writeCursor
  if ¬ SUCCEEDED pos.hr then
    ⟨pos.hr, GetCurrentPositionFailed, playCursor, writeCursor, w⟩ else
  ⟨DS_OK, NoError, playCursor, writeCursor, w⟩

/-! ## `copyToSoundBuffer` -/

/-- The value an `int` has after conversion to `DWORD`, as the comparison
`i < region1Size` of an `int` with a `DWORD` converts it. -/
def toDWORD (i : Int) : Nat := (i % 4294967296).toNat

/-- The loop counter after `++i`: `i` is a 32-bit `int`, and going past
`INT_MAX` continues at `INT_MIN` as on the two's complement targets of the
wrapper. -/
def incInt (i : Int) : Int := (i + 1 + 2147483648) % 4294967296 - 2147483648

/-- The variables the copy loops change: the two running pointers and memory. -/
structure CopyState where
  output : Nat
  data : Nat
  mem : Nat → Nat

/-- One loop `for (...; i < size; ++i) { *output++ = *data++; }` of
`copyToSoundBuffer` (lines 204-206 and 209-211), entered with counter `i`.
`size` is a `DWORD`. -/
def copyLoop (size : Nat) (i : Int) (output data : Nat) (mem : Nat → Nat) : CopyState :=
  if toDWORD i < size % DWORD_MOD then
    copyLoop size (incInt i) (output + 1) (data + 1) (Function.update mem output (mem data))
  else
    ⟨output, data, mem⟩
termination_by size % DWORD_MOD - toDWORD i
decreasing_by
  have h2 : size % DWORD_MOD < 4294967296 := Nat.mod_lt _ (by decide)
  simp only [toDWORD, incInt] at *
  omega

/-- Function `copyToSoundBuffer` of the wrapper (lines 174-226).  `data` is the
address the `char*` holds.  `region1Size` and `region2Size` are `DWORD`
variables that `Lock` fills in. -/
def copyToSoundBuffer (dev : Device) (w : World) (offset data byteCount : Nat) : Ret :=
  if w.GlobalSoundBuffer = 0 then ⟨DSERR_GENERIC, GlobalSoundBufferNotSet, w⟩ else
  let w := w.call (.Lock w.GlobalSoundBuffer offset byteCount 0)
  let locked := dev.Lock w.calls
  if ¬ SUCCEEDED locked.hr then ⟨locked.hr, LockFailed, w⟩ else
  let region1 := locked.region1
  let region1Size := locked.region1Size % DWORD_MOD
  let region2 := locked.region2
  let region2Size := locked.region2Size % DWORD_MOD
  let s := copyLoop region1Size 0 region1 data w.mem
  let s := copyLoop region2Size 0 region2 s.data s.mem
  let w := { w with mem := s.mem }
  let w := w.call (.Unlock w.GlobalSoundBuffer region1 region1Size region2 region2Size)
  let result := dev.Unlock w.calls
  if ¬ SUCCEEDED result then ⟨result, UnlockFailed, w⟩ else
  ⟨DS_OK, NoError, w⟩

/-! ## Sequences of calls of the wrapper -/

/-- One call of an exported function of the wrapper, with its arguments. -/
inductive Op where
  | initDirectSound (samplesPerSecond : Nat)
  | closeDirectSound
  | startSound
  | stopSound
  | getPlayAndWriteCursors (playCursor writeCursor : Nat)
  | copyToSoundBuffer (offset data byteCount : Nat)
  deriving DecidableEq

/-- Run one call of the wrapper; the `HRESULT` it returns comes with the new
state (`closeDirectSound` returns nothing, which is recorded as `DS_OK`). -/
def step (dev : Device) (w : World) : Op → Int × World
  | .initDirectSound samplesPerSecond =>
      let r := initDirectSound dev w samplesPerSecond
      (r.result, r.world)
  | .closeDirectSound => (DS_OK, closeDirectSound w)
  | .startSound =>
      let r := startSound dev w
      (r.result, r.world)
  | .stopSound =>
      let r := stopSound dev w
      (r.result, r.world)
  | .getPlayAndWriteCursors playCursor writeCursor =>
      let r := getPlayAndWriteCursors dev w playCursor writeCursor
      (r.result, r.world)
  | .copyToSoundBuffer offset data byteCount =>
      let r := copyToSoundBuffer dev w offset data byteCount
      (r.result, r.world)

/-- Run a sequence of calls of the wrapper, first call first.  The second
component is the history: every call made with the `HRESULT` it returned, the
most recent call first. -/
def run (dev : Device) : World × List (Op × Int) → List Op → World × List (Op × Int)
  | s, [] => s
  | (w, history), op :: ops =>
      let r := step dev w op
      run dev (r.2, (op, r.1) :: history) ops

/-- The state before any call of the wrapper: the three handles are null
(their initializers, lines 3-5), nothing has been called. -/
def World.start (mem : Nat → Nat) : World :=
  { DirectSoundObject := 0
    PrimarySoundBuffer := 0
    GlobalSoundBuffer := 0
    calls := []
    mem := mem }

/-! ## Predicates the properties are stated with -/

/-- The condition of the specification's invariant on a history (most recent
call first): the most recent `initDirectSound` call completed successfully and
`closeDirectSound` has not been called since. -/
def lastInitSucceeded : List (Op × Int) → Bool
  | [] => false
  | (.initDirectSound _, result) :: _ => decide (result = DS_OK)
  | (.closeDirectSound, _) :: _ => false
  | _ :: earlier => lastInitSucceeded earlier

/-- A weaker condition on a history (most recent call first): some
`initDirectSound` call completed successfully and `closeDirectSound` has not
been called since. -/
def someInitSucceeded : List (Op × Int) → Bool
  | [] => false
  | (.initDirectSound _, result) :: earlier =>
      if result = DS_OK then true else someInitSucceeded earlier
  | (.closeDirectSound, _) :: _ => false
  | _ :: earlier => someInitSucceeded earlier

/-- A device hands out an object whenever it reports that it created one: the
pointer that a successful `DirectSoundCreate` or `CreateSoundBuffer` stores is
not null. -/
def Device.HandsOutObjects (dev : Device) : Prop :=
  (∀ log, SUCCEEDED (dev.DirectSoundCreate log).hr → (dev.DirectSoundCreate log).object ≠ 0) ∧
  (∀ log, SUCCEEDED (dev.CreateSoundBuffer log).hr → (dev.CreateSoundBuffer log).object ≠ 0)

/-- Modelled from the spec: what the device's `Lock` returns for a ring buffer
of `capacity` bytes that starts at address `base`, the status `hr` apart:
region 1 is the bytes `[offset, min (offset + length) capacity)` of the buffer
and region 2 the bytes `[0, length - region1Size)`. -/
def ringLock (hr : Int) (base capacity offset length : Nat) : LockResult :=
  let region1Size := min (offset + length) capacity - offset
  { hr := hr
    region1 := base + offset
    region1Size := region1Size
    region2 := base
    region2Size := length - region1Size }

/-- The `Release` calls of a handle that is null (none) or not (one). -/
def releaseCalls (obj : Nat) : List Call :=
  if obj = 0 then [] else [Call.Release obj]

/-- The device accepts the last call of a log: a library call returns a
pointer that is not null, a call with an `HRESULT` returns a success code (any
code that is not negative).  `GetDesktopWindow` and `Release` cannot be
rejected. -/
def Device.accepts (dev : Device) (log : List Call) : Prop :=
  match log.getLast? with
  | some (.LoadLibraryA _) => dev.LoadLibraryA log ≠ 0
  | some (.GetProcAddress _ _) => dev.GetProcAddress log ≠ 0
  | some (.DirectSoundCreate _ _ _) => SUCCEEDED (dev.DirectSoundCreate log).hr
  | some (.SetCooperativeLevel _ _ _) => SUCCEEDED (dev.SetCooperativeLevel log)
  | some (.CreateSoundBuffer _ _ _) => SUCCEEDED (dev.CreateSoundBuffer log).hr
  | some (.SetFormat _ _) => SUCCEEDED (dev.SetFormat log)
  | some (.Play _ _ _ _) => SUCCEEDED (dev.Play log)
  | some (.Stop _) => SUCCEEDED (dev.Stop log)
  | some (.Lock _ _ _ _) => SUCCEEDED (dev.Lock log).hr
  | some (.Unlock _ _ _ _ _) => SUCCEEDED (dev.Unlock log)
  | some (.GetCurrentPosition _) => SUCCEEDED (dev.GetCurrentPosition log).hr
  | some .GetDesktopWindow => True
  | some (.Release _) => True
  | none => True

/-- Copy `n` bytes, one after the other and lowest address first, from address
`data` to address `output`: what a copy loop that makes `n` rounds does (see
`copyLoop_eq_copyN`). -/
def copyN : Nat → Nat → Nat → (Nat → Nat) → CopyState
  | 0, output, data, mem => ⟨output, data, mem⟩
  | n + 1, output, data, mem =>
      copyN n (output + 1) (data + 1) (Function.update mem output (mem data))

/-- The `n` bytes from address `a` on and the `k` bytes from address `b` on
have no byte in common. -/
def Separate (a n b k : Nat) : Prop :=
  ∀ i, i < n → ∀ j, j < k → a + i ≠ b + j

/-- The seven steps of `initDirectSound`, named as the specification lists
them. -/
inductive InitStep where
  | loadLibrary
  | findEntryPoint
  | createDevice
  | setCooperativeLevel
  | createPrimaryBuffer
  | setFormat
  | createSecondaryBuffer
  deriving DecidableEq

/-- The error kind that belongs to each step: the constants 1 to 7 of
`dsound_wrapper.h`, in the order of the steps. -/
def InitStep.errorKind : InitStep → Int
  | .loadLibrary => LoadLibraryFailed
  | .findEntryPoint => DirectSoundCreateMissing
  | .createDevice => DirectSoundCreateFailed
  | .setCooperativeLevel => SetCooperativeLevelFailed
  | .createPrimaryBuffer => CreatePrimarySoundBufferFailed
  | .setFormat => PrimarySetFormatFailed
  | .createSecondaryBuffer => CreateSecondarySoundBufferFailed

/-- The calls of a run of `initDirectSound` that no step aborts, as the
specification orders the steps, each call with the step it belongs to: load
the library, find the entry point in it, create the device through that entry
point, set the cooperative level of the device (asking for the desktop window
first), create the primary buffer on the device, set the format on that primary
buffer, create the secondary buffer on the device.  What a call is given from
earlier steps is what the device answered there. -/
def initStepCalls (dev : Device) (w : World) (samplesPerSecond : Nat) :
    List (InitStep × Call) :=
  let c1 := Call.LoadLibraryA "dsound.dll"
  let lib := dev.LoadLibraryA (w.calls ++ [c1])
  let c2 := Call.GetProcAddress lib "DirectSoundCreate"
  let entry := dev.GetProcAddress (w.calls ++ [c1, c2])
  let c3 := Call.DirectSoundCreate entry 0 0
  let device := (dev.DirectSoundCreate (w.calls ++ [c1, c2, c3])).object
  let c4 := Call.GetDesktopWindow
  let hwnd := dev.GetDesktopWindow (w.calls ++ [c1, c2, c3, c4])
  let c5 := Call.SetCooperativeLevel device hwnd DSSCL_PRIORITY
  let c6 := Call.CreateSoundBuffer device primaryBufferDescription 0
  let primary := (dev.CreateSoundBuffer (w.calls ++ [c1, c2, c3, c4, c5, c6])).object
  let c7 := Call.SetFormat primary (waveFormat samplesPerSecond)
  let c8 := Call.CreateSoundBuffer device (secondaryBufferDescription samplesPerSecond) 0
  [(.loadLibrary, c1), (.findEntryPoint, c2), (.createDevice, c3),
    (.setCooperativeLevel, c4), (.setCooperativeLevel, c5), (.createPrimaryBuffer, c6),
    (.setFormat, c7), (.createSecondaryBuffer, c8)]

/-- The log after the first `n` calls of `initStepCalls`. -/
def initLog (dev : Device) (w : World) (samplesPerSecond : Nat) (n : Nat) : List Call :=
  w.calls ++ ((initStepCalls dev w samplesPerSecond).take n).map Prod.snd

/-- The status code of the device's answer to the last call of a log: the
`HRESULT` the call returned, and for the two library calls, which return a
pointer, `DSERR_GENERIC` when the pointer is null. -/
def Device.status (dev : Device) (log : List Call) : Int :=
  match log.getLast? with
  | some (.LoadLibraryA _) => if dev.LoadLibraryA log = 0 then DSERR_GENERIC else DS_OK
  | some (.GetProcAddress _ _) => if dev.GetProcAddress log = 0 then DSERR_GENERIC else DS_OK
  | some (.DirectSoundCreate _ _ _) => (dev.DirectSoundCreate log).hr
  | some (.SetCooperativeLevel _ _ _) => dev.SetCooperativeLevel log
  | some (.CreateSoundBuffer _ _ _) => (dev.CreateSoundBuffer log).hr
  | some (.SetFormat _ _) => dev.SetFormat log
  | some (.Play _ _ _ _) => dev.Play log
  | some (.Stop _) => dev.Stop log
  | some (.Lock _ _ _ _) => (dev.Lock log).hr
  | some (.Unlock _ _ _ _ _) => dev.Unlock log
  | some (.GetCurrentPosition _) => (dev.GetCurrentPosition log).hr
  | some .GetDesktopWindow => DS_OK
  | some (.Release _) => DS_OK
  | none => DS_OK

/-- The returned status and the error kind agree: the status is `DS_OK` exactly
when the error kind is `NoError`, and a status other than `DS_OK` is negative
and comes with an error kind other than `NoError`. -/
def StatusAgrees (result errorContext : Int) : Prop :=
  (result = DS_OK ↔ errorContext = NoError) ∧
  (result = DS_OK ∨ (result < 0 ∧ errorContext ≠ NoError))

/-- The objects the device created in the course of the calls `new` that follow
the log `before`, in the order of creation: what every `DirectSoundCreate` and
`CreateSoundBuffer` call that the device answered with a success code stored in
its out-parameter. -/
def createdObjects (dev : Device) (before : List Call) : List Call → List Nat
  | [] => []
  | c :: rest =>
      let log := before ++ [c]
      let here :=
        match c with
        | .DirectSoundCreate _ _ _ =>
            if SUCCEEDED (dev.DirectSoundCreate log).hr then
              [(dev.DirectSoundCreate log).object] else []
        | .CreateSoundBuffer _ _ _ =>
            if SUCCEEDED (dev.CreateSoundBuffer log).hr then
              [(dev.CreateSoundBuffer log).object] else []
        | _ => []
      here ++ createdObjects dev log rest

/-! ## Concrete devices and states, to instantiate the theorems with -/

/-- A device that accepts every call with `DS_OK`, except that
* `LoadLibraryA` finds the library only while the log has at most `loads`
  entries,
* `Lock` returns status `lockHr` and `Unlock` status `unlockHr`.
Created objects are numbered by the length of the log.  The stream buffer is a
ring of 16 bytes at address 1000, locked as `ringLock` says. -/
def simDevice (loads : Nat) (lockHr unlockHr : Int) : Device :=
  { LoadLibraryA := fun log => if log.length ≤ loads then 1 else 0
    GetProcAddress := fun _ => 1
    DirectSoundCreate := fun log => ⟨DS_OK, log.length + 1⟩
    GetDesktopWindow := fun _ => 1
    SetCooperativeLevel := fun _ => DS_OK
    CreateSoundBuffer := fun log => ⟨DS_OK, log.length + 1⟩
    SetFormat := fun _ => DS_OK
    Play := fun _ => DS_OK
    Stop := fun _ => DS_OK
    GetCurrentPosition := fun _ => ⟨DS_OK, some 0, some 0⟩
    Lock := fun log =>
      match log.getLast? with
      | some (.Lock _ offset bytes _) => ringLock lockHr 1000 16 offset bytes
      | _ => ⟨DSERR_GENERIC, 0, 0, 0, 0⟩
    Unlock := fun _ => unlockHr }

/-- A device as `simDevice 1000 DS_OK DS_OK`, except that a `CreateSoundBuffer`
for anything but the primary buffer reports success and stores a null pointer.
The primary buffer is an object, so `initDirectSound` calls no method through a
null pointer. -/
def nullObjectDevice : Device :=
  { simDevice 1000 DS_OK DS_OK with
    CreateSoundBuffer := fun log =>
      match log.getLast? with
      | some (.CreateSoundBuffer _ desc _) =>
          if desc.dwFlags = DSBCAPS_PRIMARYBUFFER then ⟨DS_OK, log.length + 1⟩
          else ⟨DS_OK, 0⟩
      | _ => ⟨DS_OK, 0⟩ }

/-- A memory whose byte at address `a` is `a % 256`. -/
def sampleMem : Nat → Nat := fun a => a % 256

/-- A state with a stream buffer: the handles are 1, 2 and 3, the log is empty. -/
def sampleWorld : World :=
  { DirectSoundObject := 1
    PrimarySoundBuffer := 2
    GlobalSoundBuffer := 3
    calls := []
    mem := sampleMem }

/-! ## Helper lemmas -/

theorem toDWORD_incInt (i : Int) :
    toDWORD (incInt i) = (toDWORD i + 1) % 4294967296 := by
  unfold toDWORD incInt
  omega

theorem toDWORD_zero : toDWORD 0 = 0 := by
  unfold toDWORD
  omega

/-- The byte rate and the stream buffer size are products reduced modulo
`2^32`, for every sample rate. -/
theorem waveFormat_modular (samplesPerSecond : Nat) :
    (waveFormat samplesPerSecond).nAvgBytesPerSec = (samplesPerSecond * 4) % DWORD_MOD ∧
    (secondaryBufferDescription samplesPerSecond).dwBufferBytes =
      (2 * (waveFormat samplesPerSecond).nAvgBytesPerSec) % DWORD_MOD :=
  ⟨rfl, rfl⟩

theorem secondary_flags (samplesPerSecond : Nat) :
    ¬ (secondaryBufferDescription samplesPerSecond).dwFlags = DSBCAPS_PRIMARYBUFFER := by
  simp only [secondaryBufferDescription]
  decide

/-- What `closeDirectSound` does, in one equation. -/
theorem closeDirectSound_eq (w : World) :
    closeDirectSound w =
      ⟨0, 0, 0,
        w.calls ++ (releaseCalls w.GlobalSoundBuffer ++ releaseCalls w.PrimarySoundBuffer ++
          releaseCalls w.DirectSoundObject),
        w.mem⟩ := by
  obtain ⟨d, p, g, calls, mem⟩ := w
  by_cases hg : g = 0 <;> by_cases hp : p = 0 <;> by_cases hd : d = 0 <;>
    simp [closeDirectSound, ReleaseObject_GlobalSoundBuffer, ReleaseObject_PrimarySoundBuffer,
      ReleaseObject_DirectSoundObject, World.call, releaseCalls, hg, hp, hd]

/-- The log after `initDirectSound` extends the log before it by calls none of
which is a `Release`, and memory is as before. -/
theorem init_calls (dev : Device) (w : World) (samplesPerSecond : Nat) :
    ∃ new, (initDirectSound dev w samplesPerSecond).world.calls = w.calls ++ new ∧
      (∀ obj, Call.Release obj ∉ new) ∧
      (initDirectSound dev w samplesPerSecond).world.mem = w.mem := by
  simp only [initDirectSound]
  split_ifs <;> simp only [World.call, List.append_assoc] <;>
    exact ⟨_, rfl, by simp, trivial⟩

/-- The stream buffer slot after `initDirectSound`: on `DS_OK` it holds the
object of an accepted `CreateSoundBuffer`, otherwise it is as before. -/
theorem init_stream_slot (dev : Device) (w : World) (samplesPerSecond : Nat) :
    ((initDirectSound dev w samplesPerSecond).result = DS_OK ∧
      SUCCEEDED (dev.CreateSoundBuffer (initDirectSound dev w samplesPerSecond).world.calls).hr ∧
      (initDirectSound dev w samplesPerSecond).world.GlobalSoundBuffer =
        (dev.CreateSoundBuffer (initDirectSound dev w samplesPerSecond).world.calls).object) ∨
    ((initDirectSound dev w samplesPerSecond).result ≠ DS_OK ∧
      (initDirectSound dev w samplesPerSecond).world.GlobalSoundBuffer =
        w.GlobalSoundBuffer) := by
  simp only [initDirectSound]
  split_ifs <;> simp_all [World.call, DS_OK] <;> omega

/-- The four buffer functions leave the stream buffer slot as it is. -/
theorem buffer_functions_keep_slot (dev : Device) (w : World)
    (playCursor writeCursor offset data byteCount : Nat) :
    (startSound dev w).world.GlobalSoundBuffer = w.GlobalSoundBuffer ∧
    (stopSound dev w).world.GlobalSoundBuffer = w.GlobalSoundBuffer ∧
    (getPlayAndWriteCursors dev w playCursor writeCursor).world.GlobalSoundBuffer =
      w.GlobalSoundBuffer ∧
    (copyToSoundBuffer dev w offset data byteCount).world.GlobalSoundBuffer =
      w.GlobalSoundBuffer := by
  refine ⟨?_, ?_, ?_, ?_⟩
  · simp only [startSound]; split_ifs <;> rfl
  · simp only [stopSound]; split_ifs <;> rfl
  · simp only [getPlayAndWriteCursors]; split_ifs <;> rfl
  · simp only [copyToSoundBuffer]; split_ifs <;> rfl

/-- One call of the wrapper keeps the invariant: the stream buffer slot is not
null exactly when some `initDirectSound` succeeded and no `closeDirectSound`
followed. -/
theorem step_keeps_invariant (dev : Device) (hdev : dev.HandsOutObjects)
    (w : World) (history : List (Op × Int)) (op : Op)
    (hinv : w.GlobalSoundBuffer ≠ 0 ↔ someInitSucceeded history = true) :
    (step dev w op).2.GlobalSoundBuffer ≠ 0 ↔
      someInitSucceeded ((op, (step dev w op).1) :: history) = true := by
  cases op with
  | initDirectSound samplesPerSecond =>
      simp only [step, someInitSucceeded]
      rcases init_stream_slot dev w samplesPerSecond with ⟨hres, hok, hslot⟩ | ⟨hres, hslot⟩
      · rw [hslot, if_pos hres]
        simp only [iff_true]
        exact hdev.2 _ hok
      · rw [hslot, if_neg hres]
        exact hinv
  | closeDirectSound =>
      simp [step, someInitSucceeded, closeDirectSound_eq]
  | startSound =>
      simp only [step, someInitSucceeded, (buffer_functions_keep_slot dev w 0 0 0 0 0).1]
      exact hinv
  | stopSound =>
      simp only [step, someInitSucceeded, (buffer_functions_keep_slot dev w 0 0 0 0 0).2.1]
      exact hinv
  | getPlayAndWriteCursors playCursor writeCursor =>
      simp only [step, someInitSucceeded,
        (buffer_functions_keep_slot dev w playCursor writeCursor 0 0 0).2.2.1]
      exact hinv
  | copyToSoundBuffer offset data byteCount =>
      simp only [step, someInitSucceeded,
        (buffer_functions_keep_slot dev w 0 0 offset data byteCount).2.2.2]
      exact hinv

/-- A sequence of calls of the wrapper keeps the invariant of
`step_keeps_invariant`. -/
theorem run_keeps_invariant (dev : Device) (hdev : dev.HandsOutObjects) (ops : List Op) :
    ∀ (w : World) (history : List (Op × Int)),
      (w.GlobalSoundBuffer ≠ 0 ↔ someInitSucceeded history = true) →
      ((run dev (w, history) ops).1.GlobalSoundBuffer ≠ 0 ↔
        someInitSucceeded (run dev (w, history) ops).2 = true) := by
  induction ops with
  | nil => intro w history hinv; simpa [run] using hinv
  | cons op ops ih =>
      intro w history hinv
      simp only [run]
      exact ih _ _ (step_keeps_invariant dev hdev w history op hinv)

/-- A copy loop entered with counter `i` makes `size - i` rounds. -/
theorem copyLoop_eq_copyN (size : Nat) :
    ∀ (k : Nat) (i : Int) (output data : Nat) (mem : Nat → Nat),
      size % DWORD_MOD - toDWORD i = k →
      copyLoop size i output data mem = copyN k output data mem := by
  have hsize : size % DWORD_MOD < 4294967296 := Nat.mod_lt _ (by decide)
  intro k
  induction k with
  | zero =>
      intro i output data mem hk
      rw [copyLoop, if_neg (by omega)]
      rfl
  | succ k ih =>
      intro i output data mem hk
      rw [copyLoop, if_pos (by omega), copyN]
      apply ih
      rw [toDWORD_incInt]
      omega

/-- A copy loop entered with counter 0 and a `DWORD` bound makes `size`
rounds. -/
theorem copyLoop_zero (size output data : Nat) (mem : Nat → Nat) (hsize : size < DWORD_MOD) :
    copyLoop size 0 output data mem = copyN size output data mem := by
  apply copyLoop_eq_copyN
  rw [toDWORD_zero, Nat.mod_eq_of_lt hsize]
  rfl

theorem copyN_data (n : Nat) :
    ∀ (output data : Nat) (mem : Nat → Nat), (copyN n output data mem).data = data + n := by
  induction n with
  | zero => intro output data mem; rfl
  | succ n ih =>
      intro output data mem
      rw [copyN, ih]
      omega

/-- Memory after copying `n` bytes from a source that the destination does not
overlap: the destination holds the source bytes, every other byte is as
before. -/
theorem copyN_mem (n : Nat) :
    ∀ (output data : Nat) (mem : Nat → Nat), Separate data n output n →
      ∀ a, (copyN n output data mem).mem a =
        if output ≤ a ∧ a < output + n then mem (data + (a - output)) else mem a := by
  induction n with
  | zero =>
      intro output data mem _ a
      rw [if_neg (by omega)]
      rfl
  | succ n ih =>
      intro output data mem hsep a
      have hsep2 : Separate (data + 1) n (output + 1) n := by
        intro i hi j hj
        have := hsep (i + 1) (by omega) (j + 1) (by omega)
        omega
      rw [copyN, ih _ _ _ hsep2 a]
      by_cases h1 : output + 1 ≤ a ∧ a < output + 1 + n
      · rw [if_pos h1, if_pos (by omega)]
        have hne : data + 1 + (a - (output + 1)) ≠ output := by
          have := hsep (a - output) (by omega) 0 (by omega)
          omega
        rw [Function.update_noteq hne]
        congr 1
        omega
      · rw [if_neg h1]
        by_cases h2 : a = output
        · subst h2
          rw [Function.update_same, if_pos (by omega)]
          simp
        · rw [Function.update_noteq h2, if_neg (by omega)]

/-- Memory after the two copy loops of `copyToSoundBuffer`, for a source that
neither region overlaps and regions that do not overlap each other. -/
theorem copy_regions_mem (mem : Nat → Nat) (data len r1 n1 r2 n2 : Nat)
    (hlen : n1 + n2 ≤ len) (hs1 : Separate data len r1 n1) (hs2 : Separate data len r2 n2)
    (h12 : Separate r1 n1 r2 n2) :
    (∀ i, i < n1 →
      (copyN n2 r2 (copyN n1 r1 data mem).data (copyN n1 r1 data mem).mem).mem (r1 + i) =
        mem (data + i)) ∧
    (∀ j, j < n2 →
      (copyN n2 r2 (copyN n1 r1 data mem).data (copyN n1 r1 data mem).mem).mem (r2 + j) =
        mem (data + n1 + j)) ∧
    (∀ a, (∀ i, i < n1 → a ≠ r1 + i) → (∀ j, j < n2 → a ≠ r2 + j) →
      (copyN n2 r2 (copyN n1 r1 data mem).data (copyN n1 r1 data mem).mem).mem a = mem a) := by
  have hA : Separate data n1 r1 n1 := fun i hi j hj => hs1 i (by omega) j hj
  have hB : Separate (data + n1) n2 r2 n2 := fun i hi j hj => by
    have := hs2 (n1 + i) (by omega) j hj
    omega
  have hfinal : ∀ a,
      (copyN n2 r2 (copyN n1 r1 data mem).data (copyN n1 r1 data mem).mem).mem a =
        if r2 ≤ a ∧ a < r2 + n2 then
          (copyN n1 r1 data mem).mem (data + n1 + (a - r2))
        else (copyN n1 r1 data mem).mem a := by
    intro a
    rw [copyN_data, copyN_mem n2 _ _ _ hB a]
  refine ⟨?_, ?_, ?_⟩
  · intro i hi
    have hnot : ¬ (r2 ≤ r1 + i ∧ r1 + i < r2 + n2) := by
      intro h
      exact h12 i hi (r1 + i - r2) (by omega) (by omega)
    rw [hfinal, if_neg hnot, copyN_mem n1 _ _ _ hA, if_pos (by omega)]
    congr 1
    omega
  · intro j hj
    have hnot : ¬ (r1 ≤ data + n1 + (r2 + j - r2) ∧ data + n1 + (r2 + j - r2) < r1 + n1) := by
      intro h
      have := hs1 (n1 + j) (by omega) (data + n1 + j - r1) (by omega)
      omega
    rw [hfinal, if_pos (by omega), copyN_mem n1 _ _ _ hA, if_neg hnot]
    congr 1
    omega
  · intro a h1 h2
    have hnot2 : ¬ (r2 ≤ a ∧ a < r2 + n2) := by
      intro h
      exact h2 (a - r2) (by omega) (by omega)
    have hnot1 : ¬ (r1 ≤ a ∧ a < r1 + n1) := by
      intro h
      exact h1 (a - r1) (by omega) (by omega)
    rw [hfinal, if_neg hnot2, copyN_mem n1 _ _ _ hA, if_neg hnot1]

/-- What `copyToSoundBuffer` does once `Lock` has succeeded with `DWORD`
sizes: it copies into the two regions, logs `Lock` and an `Unlock` with the
regions of the lock, and reports what `Unlock` answers. -/
theorem copy_after_lock (dev : Device) (w : World) (offset data byteCount : Nat)
    (lk : LockResult) (hinit : w.GlobalSoundBuffer ≠ 0)
    (hlock : dev.Lock (w.calls ++ [Call.Lock w.GlobalSoundBuffer offset byteCount 0]) = lk)
    (hok : SUCCEEDED lk.hr)
    (hsz1 : lk.region1Size < DWORD_MOD) (hsz2 : lk.region2Size < DWORD_MOD) :
    (copyToSoundBuffer dev w offset data byteCount).world.mem =
      (copyN lk.region2Size lk.region2 (copyN lk.region1Size lk.region1 data w.mem).data
        (copyN lk.region1Size lk.region1 data w.mem).mem).mem ∧
    (copyToSoundBuffer dev w offset data byteCount).world.calls =
      w.calls ++ [Call.Lock w.GlobalSoundBuffer offset byteCount 0,
        Call.Unlock w.GlobalSoundBuffer lk.region1 lk.region1Size lk.region2 lk.region2Size] ∧
    (copyToSoundBuffer dev w offset data byteCount).result =
      (if SUCCEEDED (dev.Unlock (copyToSoundBuffer dev w offset data byteCount).world.calls)
        then DS_OK
        else dev.Unlock (copyToSoundBuffer dev w offset data byteCount).world.calls) ∧
    (copyToSoundBuffer dev w offset data byteCount).errorContext =
      (if SUCCEEDED (dev.Unlock (copyToSoundBuffer dev w offset data byteCount).world.calls)
        then NoError else UnlockFailed) := by
  have hok2 : ¬ ¬ SUCCEEDED
      (dev.Lock (w.calls ++ [Call.Lock w.GlobalSoundBuffer offset byteCount 0])).hr := by
    rw [hlock]; exact not_not.mpr hok
  simp only [copyToSoundBuffer, World.call, if_neg hinit, if_neg hok2, hlock,
    Nat.mod_eq_of_lt hsz1, Nat.mod_eq_of_lt hsz2, copyLoop_zero _ _ _ _ hsz1,
    copyLoop_zero _ _ _ _ hsz2, List.append_assoc, List.singleton_append]
  split_ifs <;> simp_all

/-- The bytes in memory after `copyToSoundBuffer` when `Lock` has succeeded. -/
theorem copy_fills_regions_aux (dev : Device) (w : World) (offset data byteCount len : Nat)
    (lk : LockResult) (hinit : w.GlobalSoundBuffer ≠ 0)
    (hlock : dev.Lock (w.calls ++ [Call.Lock w.GlobalSoundBuffer offset byteCount 0]) = lk)
    (hok : SUCCEEDED lk.hr)
    (hsz1 : lk.region1Size < DWORD_MOD) (hsz2 : lk.region2Size < DWORD_MOD)
    (hlen : lk.region1Size + lk.region2Size ≤ len)
    (hs1 : Separate data len lk.region1 lk.region1Size)
    (hs2 : Separate data len lk.region2 lk.region2Size)
    (h12 : Separate lk.region1 lk.region1Size lk.region2 lk.region2Size) :
    (∀ i, i < lk.region1Size →
      (copyToSoundBuffer dev w offset data byteCount).world.mem (lk.region1 + i) =
        w.mem (data + i)) ∧
    (∀ j, j < lk.region2Size →
      (copyToSoundBuffer dev w offset data byteCount).world.mem (lk.region2 + j) =
        w.mem (data + lk.region1Size + j)) ∧
    (∀ a, (∀ i, i < lk.region1Size → a ≠ lk.region1 + i) →
      (∀ j, j < lk.region2Size → a ≠ lk.region2 + j) →
      (copyToSoundBuffer dev w offset data byteCount).world.mem a = w.mem a) := by
  rw [(copy_after_lock dev w offset data byteCount lk hinit hlock hok hsz1 hsz2).1]
  exact copy_regions_mem w.mem data len _ _ _ _ hlen hs1 hs2 h12

/-- The buffer requests of a run of `initDirectSound`: which call passes which
description to which object, and which object ends up in which slot. -/
theorem init_requests (dev : Device) (w : World) (samplesPerSecond : Nat) :
    ∃ new, (initDirectSound dev w samplesPerSecond).world.calls = w.calls ++ new ∧
      new.length ≤ 8 ∧
      (∀ c, new.get? 5 = some c →
        c = .CreateSoundBuffer (initDirectSound dev w samplesPerSecond).world.DirectSoundObject
          primaryBufferDescription 0) ∧
      (∀ c, new.get? 6 = some c →
        c = .SetFormat (initDirectSound dev w samplesPerSecond).world.PrimarySoundBuffer
          (waveFormat samplesPerSecond)) ∧
      (∀ c, new.get? 7 = some c →
        c = .CreateSoundBuffer (initDirectSound dev w samplesPerSecond).world.DirectSoundObject
          (secondaryBufferDescription samplesPerSecond) 0) ∧
      ((initDirectSound dev w samplesPerSecond).result = DS_OK →
        new.length = 8 ∧
        (initDirectSound dev w samplesPerSecond).world.PrimarySoundBuffer =
          (dev.CreateSoundBuffer (w.calls ++ new.take 6)).object ∧
        (initDirectSound dev w samplesPerSecond).world.GlobalSoundBuffer =
          (dev.CreateSoundBuffer (w.calls ++ new)).object) ∧
      ((initDirectSound dev w samplesPerSecond).result ≠ DS_OK →
        (initDirectSound dev w samplesPerSecond).world.GlobalSoundBuffer =
          w.GlobalSoundBuffer) := by
  generalize hr : initDirectSound dev w samplesPerSecond = r
  simp only [initDirectSound, World.call, List.append_assoc, List.singleton_append,
    List.cons_append, List.nil_append] at hr
  generalize hlib : dev.LoadLibraryA (w.calls ++ [Call.LoadLibraryA "dsound.dll"]) = lib at hr
  generalize hentry : dev.GetProcAddress (w.calls ++ [Call.LoadLibraryA "dsound.dll",
    Call.GetProcAddress lib "DirectSoundCreate"]) = entry at hr
  generalize hds : dev.DirectSoundCreate (w.calls ++ [Call.LoadLibraryA "dsound.dll",
    Call.GetProcAddress lib "DirectSoundCreate", Call.DirectSoundCreate entry 0 0]) = ds at hr
  generalize hhwnd : dev.GetDesktopWindow (w.calls ++ [Call.LoadLibraryA "dsound.dll",
    Call.GetProcAddress lib "DirectSoundCreate", Call.DirectSoundCreate entry 0 0,
    Call.GetDesktopWindow]) = hwnd at hr
  generalize hcoop : dev.SetCooperativeLevel (w.calls ++ [Call.LoadLibraryA "dsound.dll",
    Call.GetProcAddress lib "DirectSoundCreate", Call.DirectSoundCreate entry 0 0,
    Call.GetDesktopWindow, Call.SetCooperativeLevel ds.object hwnd DSSCL_PRIORITY]) = coop at hr
  generalize hpb : dev.CreateSoundBuffer (w.calls ++ [Call.LoadLibraryA "dsound.dll",
    Call.GetProcAddress lib "DirectSoundCreate", Call.DirectSoundCreate entry 0 0,
    Call.GetDesktopWindow, Call.SetCooperativeLevel ds.object hwnd DSSCL_PRIORITY,
    Call.CreateSoundBuffer ds.object primaryBufferDescription 0]) = pb at hr
  generalize hfmt : dev.SetFormat (w.calls ++ [Call.LoadLibraryA "dsound.dll",
    Call.GetProcAddress lib "DirectSoundCreate", Call.DirectSoundCreate entry 0 0,
    Call.GetDesktopWindow, Call.SetCooperativeLevel ds.object hwnd DSSCL_PRIORITY,
    Call.CreateSoundBuffer ds.object primaryBufferDescription 0,
    Call.SetFormat pb.object (waveFormat samplesPerSecond)]) = fmt at hr
  generalize hsb : dev.CreateSoundBuffer (w.calls ++ [Call.LoadLibraryA "dsound.dll",
    Call.GetProcAddress lib "DirectSoundCreate", Call.DirectSoundCreate entry 0 0,
    Call.GetDesktopWindow, Call.SetCooperativeLevel ds.object hwnd DSSCL_PRIORITY,
    Call.CreateSoundBuffer ds.object primaryBufferDescription 0,
    Call.SetFormat pb.object (waveFormat samplesPerSecond),
    Call.CreateSoundBuffer ds.object (secondaryBufferDescription samplesPerSecond) 0]) = sb at hr
  split_ifs at hr with h1 h2 h3 h4 h5 h6 h7 <;> subst hr <;>
    refine ⟨_, rfl, by simp, by simp, by simp, by simp, ?_, ?_⟩
  all_goals first
    | (intro hres
       rfl)
    | (intro hres
       exact absurd rfl hres)
    | (intro hres
       exfalso
       revert hres
       simp only [DS_OK, DSERR_GENERIC, SUCCEEDED] at *
       omega)
    | (intro hres
       simp [*])

/-! ## The properties -/

/-- C2: when the stream buffer slot `GlobalSoundBuffer` is null, each of
`startSound`, `stopSound`, `getPlayAndWriteCursors` and `copyToSoundBuffer`
returns, for every argument and every device, the failing status
`DSERR_GENERIC` with error kind `GlobalSoundBufferNotSet = 9`, and hands back
the state it was given: no call is added to the log, the three slots, memory
and the cursor out-parameters are untouched. -/
theorem not_initialized_fails (dev : Device) (w : World)
    (playCursor writeCursor offset data byteCount : Nat)
    (hnull : w.GlobalSoundBuffer = 0) :
    ¬ SUCCEEDED DSERR_GENERIC ∧ GlobalSoundBufferNotSet = 9 ∧
    startSound dev w = ⟨DSERR_GENERIC, GlobalSoundBufferNotSet, w⟩ ∧
    stopSound dev w = ⟨DSERR_GENERIC, GlobalSoundBufferNotSet, w⟩ ∧
    getPlayAndWriteCursors dev w playCursor writeCursor =
      ⟨DSERR_GENERIC, GlobalSoundBufferNotSet, playCursor, writeCursor, w⟩ ∧
    copyToSoundBuffer dev w offset data byteCount =
      ⟨DSERR_GENERIC, GlobalSoundBufferNotSet, w⟩ := by
  refine ⟨by decide, rfl, ?_, ?_, ?_, ?_⟩
  · simp [startSound, hnull]
  · simp [stopSound, hnull]
  · simp [getPlayAndWriteCursors, hnull]
  · simp [copyToSoundBuffer, hnull]

/-- C4: `closeDirectSound` is idempotent.  From every state one close appends
to the log exactly one `Release` for each handle that is not null, in the order
stream buffer, primary buffer, device, and nothing else; it leaves the three
slots null and memory as it was.  A second close right after it, and a close in
a state whose three slots are null (whatever its log and memory), hands back
the state unchanged, so it makes no `Release` call and no handle is released
twice. -/
theorem close_idempotent (w : World) :
    (closeDirectSound w).calls =
      w.calls ++ (releaseCalls w.GlobalSoundBuffer ++ releaseCalls w.PrimarySoundBuffer ++
        releaseCalls w.DirectSoundObject) ∧
    (closeDirectSound w).GlobalSoundBuffer = 0 ∧
    (closeDirectSound w).PrimarySoundBuffer = 0 ∧
    (closeDirectSound w).DirectSoundObject = 0 ∧
    (closeDirectSound w).mem = w.mem ∧
    closeDirectSound (closeDirectSound w) = closeDirectSound w ∧
    closeDirectSound ⟨0, 0, 0, w.calls, w.mem⟩ = ⟨0, 0, 0, w.calls, w.mem⟩ := by
  simp [closeDirectSound_eq, releaseCalls]

/-- A close of the sample state, whose handles are 1, 2 and 3, releases the
stream buffer, then the primary buffer, then the device. -/
theorem close_idempotent_check :
    (closeDirectSound sampleWorld).calls = [.Release 3, .Release 2, .Release 1] := by
  decide

/-- C2 at a concrete input: the state before any call, whose stream buffer slot
is null. -/
theorem not_initialized_fails_witness :
    (World.start sampleMem).GlobalSoundBuffer = 0 ∧
    startSound (simDevice 0 0 0) (World.start sampleMem) =
      ⟨DSERR_GENERIC, GlobalSoundBufferNotSet, World.start sampleMem⟩ :=
  ⟨rfl, (not_initialized_fails (simDevice 0 0 0) (World.start sampleMem) 0 0 0 0 0 rfl).2.2.1⟩

/-- C10: for each of `initDirectSound`, `startSound`, `stopSound`,
`getPlayAndWriteCursors` and `copyToSoundBuffer`, for every input, state and
device, the returned status and the error kind agree (`StatusAgrees`: the status
is `DS_OK` exactly when the kind is `NoError`, every other status is negative
and paired with a kind other than `NoError`).  Moreover the status is `DS_OK`
exactly when the device accepted the last call the function made (and, for the
four buffer functions, the stream buffer slot is not null); a call is accepted
when its status is not negative, so a success code other than zero is reported
as `DS_OK`. -/
theorem status_agrees_with_error_kind (dev : Device) (w : World)
    (samplesPerSecond playCursor writeCursor offset data byteCount : Nat) :
    (StatusAgrees (initDirectSound dev w samplesPerSecond).result
        (initDirectSound dev w samplesPerSecond).errorContext ∧
      ((initDirectSound dev w samplesPerSecond).result = DS_OK ↔
        dev.accepts (initDirectSound dev w samplesPerSecond).world.calls)) ∧
    (StatusAgrees (startSound dev w).result (startSound dev w).errorContext ∧
      ((startSound dev w).result = DS_OK ↔
        w.GlobalSoundBuffer ≠ 0 ∧ dev.accepts (startSound dev w).world.calls)) ∧
    (StatusAgrees (stopSound dev w).result (stopSound dev w).errorContext ∧
      ((stopSound dev w).result = DS_OK ↔
        w.GlobalSoundBuffer ≠ 0 ∧ dev.accepts (stopSound dev w).world.calls)) ∧
    (StatusAgrees (getPlayAndWriteCursors dev w playCursor writeCursor).result
        (getPlayAndWriteCursors dev w playCursor writeCursor).errorContext ∧
      ((getPlayAndWriteCursors dev w playCursor writeCursor).result = DS_OK ↔
        w.GlobalSoundBuffer ≠ 0 ∧
          dev.accepts (getPlayAndWriteCursors dev w playCursor writeCursor).world.calls)) ∧
    (StatusAgrees (copyToSoundBuffer dev w offset data byteCount).result
        (copyToSoundBuffer dev w offset data byteCount).errorContext ∧
      ((copyToSoundBuffer dev w offset data byteCount).result = DS_OK ↔
        w.GlobalSoundBuffer ≠ 0 ∧
          dev.accepts (copyToSoundBuffer dev w offset data byteCount).world.calls)) := by
  refine ⟨?_, ?_, ?_, ?_, ?_⟩
  · simp only [initDirectSound]
    split_ifs <;> simp_all [StatusAgrees, Device.accepts, World.call, DS_OK, NoError] <;> omega
  · simp only [startSound]
    split_ifs <;> simp_all [StatusAgrees, Device.accepts, World.call, DS_OK, NoError]
    omega
  · simp only [stopSound]
    split_ifs <;> simp_all [StatusAgrees, Device.accepts, World.call, DS_OK, NoError]
    omega
  · simp only [getPlayAndWriteCursors]
    split_ifs <;> simp_all [StatusAgrees, Device.accepts, World.call, DS_OK, NoError]
    omega
  · simp only [copyToSoundBuffer]
    split_ifs <;> simp_all [StatusAgrees, Device.accepts, World.call, DS_OK, NoError] <;> omega

/-- A `Play` that the device answers with the success code 1 is reported as
`DS_OK` with `NoError`. -/
theorem start_with_success_code_check :
    (startSound { simDevice 0 0 0 with Play := fun _ => 1 } sampleWorld).result = DS_OK ∧
    (startSound { simDevice 0 0 0 with Play := fun _ => 1 } sampleWorld).errorContext =
      NoError := by
  decide

/-- C9 as stated fails: the sample rate `536870912 = 2^29` is a positive 32-bit
value, `8 * 2^29 = 2^32` does not fit a `DWORD`, and the wrapper requests a
stream buffer of 0 bytes; at `2^30` the byte rate `nAvgBytesPerSec` is 0 as
well.  The request with 0 bytes is the last call of an `initDirectSound` that
the device accepts throughout. -/
theorem format_overflow_counterexample :
    0 < 536870912 ∧ 536870912 < DWORD_MOD ∧
    (secondaryBufferDescription 536870912).dwBufferBytes = 0 ∧
    (secondaryBufferDescription 536870912).dwBufferBytes ≠ 8 * 536870912 ∧
    (waveFormat 1073741824).nAvgBytesPerSec = 0 ∧
    (waveFormat 1073741824).nAvgBytesPerSec ≠ 1073741824 * 4 ∧
    (initDirectSound (simDevice 1 0 0) (World.start sampleMem) 536870912).result = DS_OK ∧
    ((initDirectSound (simDevice 1 0 0) (World.start sampleMem) 536870912).world.calls.getLast?
      ).map (fun c => match c with
        | .CreateSoundBuffer _ desc _ => desc.dwBufferBytes
        | _ => 1) = some 0 := by
  decide

/-- C9, amended: for every sample rate with `8 * sampleRate < 2^32`, the format
that `initDirectSound` builds has tag PCM, 2 channels, 16 bits per sample, the
given sample rate, `nBlockAlign = 2*16/8 = 4` and `nAvgBytesPerSec =
sampleRate * 4`; the stream buffer is described with `dwBufferBytes =
2 * nAvgBytesPerSec = 8 * sampleRate` and that format, the primary buffer with
`dwBufferBytes = 0`; every `SetFormat` call that `initDirectSound` makes passes
that format, and every `CreateSoundBuffer` call passes one of these two
descriptions.  These are the requests of the run: the sixth call that
`initDirectSound` makes, if it gets that far, creates a buffer on the stored
device with the primary description (0 bytes), the seventh sets that format on
the stored primary buffer, the eighth creates a buffer on the stored device
with the stream description (`8 * sampleRate` bytes).  When `initDirectSound`
returns `DS_OK`, all eight calls were made, the primary slot holds the object
of the sixth call and the stream slot the object of the eighth; otherwise the
stream slot is as before. -/
theorem format_and_capacity (dev : Device) (w : World) (samplesPerSecond : Nat)
    (hfits : 8 * samplesPerSecond < DWORD_MOD) :
    (waveFormat samplesPerSecond).wFormatTag = WAVE_FORMAT_PCM ∧
    (waveFormat samplesPerSecond).nChannels = 2 ∧
    (waveFormat samplesPerSecond).wBitsPerSample = 16 ∧
    (waveFormat samplesPerSecond).nSamplesPerSec = samplesPerSecond ∧
    (waveFormat samplesPerSecond).nBlockAlign = 2 * 16 / 8 ∧
    (waveFormat samplesPerSecond).nBlockAlign = 4 ∧
    (waveFormat samplesPerSecond).nAvgBytesPerSec = samplesPerSecond * 4 ∧
    (secondaryBufferDescription samplesPerSecond).dwBufferBytes =
      2 * (waveFormat samplesPerSecond).nAvgBytesPerSec ∧
    (secondaryBufferDescription samplesPerSecond).dwBufferBytes = 8 * samplesPerSecond ∧
    (secondaryBufferDescription samplesPerSecond).lpwfxFormat =
      some (waveFormat samplesPerSecond) ∧
    primaryBufferDescription.dwBufferBytes = 0 ∧
    (∀ c ∈ (initDirectSound dev w samplesPerSecond).world.calls.drop w.calls.length,
      (∀ buffer format, c = .SetFormat buffer format → format = waveFormat samplesPerSecond) ∧
      (∀ directSound desc outer, c = .CreateSoundBuffer directSound desc outer →
        desc = primaryBufferDescription ∨
          desc = secondaryBufferDescription samplesPerSecond)) ∧
    ∃ new, (initDirectSound dev w samplesPerSecond).world.calls = w.calls ++ new ∧
      new.length ≤ 8 ∧
      (∀ c, new.get? 5 = some c →
        c = .CreateSoundBuffer (initDirectSound dev w samplesPerSecond).world.DirectSoundObject
          { dwFlags := DSBCAPS_PRIMARYBUFFER, dwBufferBytes := 0, lpwfxFormat := none } 0) ∧
      (∀ c, new.get? 6 = some c →
        c = .SetFormat (initDirectSound dev w samplesPerSecond).world.PrimarySoundBuffer
          (waveFormat samplesPerSecond)) ∧
      (∀ c, new.get? 7 = some c →
        c = .CreateSoundBuffer (initDirectSound dev w samplesPerSecond).world.DirectSoundObject
          { dwFlags := DSBCAPS_GETCURRENTPOSITION2 ||| DSBCAPS_GLOBALFOCUS
            dwBufferBytes := 8 * samplesPerSecond
            lpwfxFormat := some (waveFormat samplesPerSecond) } 0) ∧
      ((initDirectSound dev w samplesPerSecond).result = DS_OK →
        new.length = 8 ∧
        (initDirectSound dev w samplesPerSecond).world.PrimarySoundBuffer =
          (dev.CreateSoundBuffer (w.calls ++ new.take 6)).object ∧
        (initDirectSound dev w samplesPerSecond).world.GlobalSoundBuffer =
          (dev.CreateSoundBuffer (w.calls ++ new)).object) ∧
      ((initDirectSound dev w samplesPerSecond).result ≠ DS_OK →
        (initDirectSound dev w samplesPerSecond).world.GlobalSoundBuffer =
          w.GlobalSoundBuffer) := by
  have hmod := waveFormat_modular samplesPerSecond
  have hbytes : (secondaryBufferDescription samplesPerSecond).dwBufferBytes =
      8 * samplesPerSecond := by
    rw [hmod.2, hmod.1]; simp only [DWORD_MOD] at *; omega
  have hdesc : secondaryBufferDescription samplesPerSecond =
      { dwFlags := DSBCAPS_GETCURRENTPOSITION2 ||| DSBCAPS_GLOBALFOCUS
        dwBufferBytes := 8 * samplesPerSecond
        lpwfxFormat := some (waveFormat samplesPerSecond) } := by
    rw [← hbytes]; rfl
  refine ⟨rfl, rfl, rfl, rfl, rfl, rfl, ?_, ?_, hbytes, rfl, rfl, ?_, ?_⟩
  · rw [hmod.1]; simp only [DWORD_MOD] at *; omega
  · rw [hmod.2, hmod.1]; simp only [DWORD_MOD] at *; omega
  · simp only [initDirectSound]
    split_ifs <;> simp [World.call]
  · rw [← hdesc]
    exact init_requests dev w samplesPerSecond

/-- C9, amended, at the sample rate 44100: the byte rate is `44100 * 4`, the
stream description asks for `8 * 44100` bytes, and the eighth call of a run
that a device accepts throughout asks for them. -/
theorem format_and_capacity_witness :
    8 * 44100 < DWORD_MOD ∧
    (waveFormat 44100).nAvgBytesPerSec = 44100 * 4 ∧
    (secondaryBufferDescription 44100).dwBufferBytes = 8 * 44100 ∧
    ((initDirectSound (simDevice 1 0 0) (World.start sampleMem) 44100).world.calls.getLast?
      ).map (fun c => match c with
        | .CreateSoundBuffer _ desc _ => desc.dwBufferBytes
        | _ => 0) = some 352800 :=
  ⟨by decide,
   (format_and_capacity (simDevice 1 0 0) (World.start sampleMem) 44100 (by decide)).2.2.2.2.2.2.1,
   (format_and_capacity (simDevice 1 0 0) (World.start sampleMem)
      44100 (by decide)).2.2.2.2.2.2.2.2.1,
   by decide⟩

/-- C5: for every sample rate and every device, starting from a state whose
three slots are null, `initDirectSound` followed at once by `closeDirectSound`
leaves the three slots null and memory as it was.  `initDirectSound` itself
makes no `Release` call, and the calls that `closeDirectSound` adds are exactly
one `Release` for every object that the device created during this
`initDirectSound` (null pointers apart), latest creation first: every handle
that was created and stored is released exactly once. -/
theorem init_then_close (dev : Device) (w : World) (samplesPerSecond : Nat)
    (hd : w.DirectSoundObject = 0) (hp : w.PrimarySoundBuffer = 0)
    (hg : w.GlobalSoundBuffer = 0) :
    (closeDirectSound (initDirectSound dev w samplesPerSecond).world).DirectSoundObject = 0 ∧
    (closeDirectSound (initDirectSound dev w samplesPerSecond).world).PrimarySoundBuffer = 0 ∧
    (closeDirectSound (initDirectSound dev w samplesPerSecond).world).GlobalSoundBuffer = 0 ∧
    (closeDirectSound (initDirectSound dev w samplesPerSecond).world).mem = w.mem ∧
    ∃ new, (initDirectSound dev w samplesPerSecond).world.calls = w.calls ++ new ∧
      (∀ obj, Call.Release obj ∉ new) ∧
      (closeDirectSound (initDirectSound dev w samplesPerSecond).world).calls =
        w.calls ++ new ++
          (((createdObjects dev w.calls new).reverse.filter (fun obj => obj ≠ 0)).map
            Call.Release) := by
  refine ⟨by simp [closeDirectSound_eq], by simp [closeDirectSound_eq],
    by simp [closeDirectSound_eq], ?_, ?_⟩
  · obtain ⟨new, -, -, hmem⟩ := init_calls dev w samplesPerSecond
    simp [closeDirectSound_eq, hmem]
  · simp only [closeDirectSound_eq, initDirectSound, World.call, List.append_assoc,
      List.singleton_append, List.cons_append, List.nil_append]
    generalize hlib : dev.LoadLibraryA (w.calls ++ [Call.LoadLibraryA "dsound.dll"]) = lib
    generalize hentry : dev.GetProcAddress (w.calls ++ [Call.LoadLibraryA "dsound.dll",
      Call.GetProcAddress lib "DirectSoundCreate"]) = entry
    generalize hds : dev.DirectSoundCreate (w.calls ++ [Call.LoadLibraryA "dsound.dll",
      Call.GetProcAddress lib "DirectSoundCreate", Call.DirectSoundCreate entry 0 0]) = ds
    generalize hhwnd : dev.GetDesktopWindow (w.calls ++ [Call.LoadLibraryA "dsound.dll",
      Call.GetProcAddress lib "DirectSoundCreate", Call.DirectSoundCreate entry 0 0,
      Call.GetDesktopWindow]) = hwnd
    generalize hcoop : dev.SetCooperativeLevel (w.calls ++ [Call.LoadLibraryA "dsound.dll",
      Call.GetProcAddress lib "DirectSoundCreate", Call.DirectSoundCreate entry 0 0,
      Call.GetDesktopWindow, Call.SetCooperativeLevel ds.object hwnd DSSCL_PRIORITY]) = coop
    generalize hpb : dev.CreateSoundBuffer (w.calls ++ [Call.LoadLibraryA "dsound.dll",
      Call.GetProcAddress lib "DirectSoundCreate", Call.DirectSoundCreate entry 0 0,
      Call.GetDesktopWindow, Call.SetCooperativeLevel ds.object hwnd DSSCL_PRIORITY,
      Call.CreateSoundBuffer ds.object primaryBufferDescription 0]) = pb
    generalize hfmt : dev.SetFormat (w.calls ++ [Call.LoadLibraryA "dsound.dll",
      Call.GetProcAddress lib "DirectSoundCreate", Call.DirectSoundCreate entry 0 0,
      Call.GetDesktopWindow, Call.SetCooperativeLevel ds.object hwnd DSSCL_PRIORITY,
      Call.CreateSoundBuffer ds.object primaryBufferDescription 0,
      Call.SetFormat pb.object (waveFormat samplesPerSecond)]) = fmt
    generalize hsb : dev.CreateSoundBuffer (w.calls ++ [Call.LoadLibraryA "dsound.dll",
      Call.GetProcAddress lib "DirectSoundCreate", Call.DirectSoundCreate entry 0 0,
      Call.GetDesktopWindow, Call.SetCooperativeLevel ds.object hwnd DSSCL_PRIORITY,
      Call.CreateSoundBuffer ds.object primaryBufferDescription 0,
      Call.SetFormat pb.object (waveFormat samplesPerSecond),
      Call.CreateSoundBuffer ds.object (secondaryBufferDescription samplesPerSecond) 0]) = sb
    split_ifs with h1 h2 h3 h4 h5 h6 h7 <;>
      refine ⟨_, rfl, by simp, ?_⟩ <;>
      simp [createdObjects, releaseCalls, List.filter_cons, *] <;>
      split_ifs <;> simp [*]

/-- C5 at a concrete input: the state before any call and a device that accepts
every call. -/
theorem init_then_close_witness :
    (World.start sampleMem).DirectSoundObject = 0 ∧
    (World.start sampleMem).PrimarySoundBuffer = 0 ∧
    (World.start sampleMem).GlobalSoundBuffer = 0 ∧
    (closeDirectSound
      (initDirectSound (simDevice 1 0 0) (World.start sampleMem) 44100).world).GlobalSoundBuffer
        = 0 :=
  ⟨rfl, rfl, rfl,
    (init_then_close (simDevice 1 0 0) (World.start sampleMem) 44100 rfl rfl rfl).2.2.1⟩

/-- C8 as stated fails, in two ways.  With a device that finds the library
for the first `initDirectSound` only, after a successful and then a failing
`initDirectSound` the stream buffer slot is not null although the most recent
`initDirectSound` failed.  With a device that creates the device and the
primary buffer but answers the `CreateSoundBuffer` for the stream buffer with
success and a null pointer, after one `initDirectSound`, which returns `DS_OK`,
the slot is null. -/
theorem stream_slot_counterexample :
    ((run (simDevice 1 0 0) (World.start sampleMem, [])
        [.initDirectSound 44100, .initDirectSound 44100]).1.GlobalSoundBuffer ≠ 0 ∧
      (run (simDevice 1 0 0) (World.start sampleMem, [])
        [.initDirectSound 44100, .initDirectSound 44100]).2 =
          [(.initDirectSound 44100, DSERR_GENERIC), (.initDirectSound 44100, DS_OK)] ∧
      lastInitSucceeded (run (simDevice 1 0 0) (World.start sampleMem, [])
        [.initDirectSound 44100, .initDirectSound 44100]).2 = false) ∧
    ((run nullObjectDevice (World.start sampleMem, [])
        [.initDirectSound 44100]).1.GlobalSoundBuffer = 0 ∧
      lastInitSucceeded (run nullObjectDevice (World.start sampleMem, [])
        [.initDirectSound 44100]).2 = true) := by
  decide

/-- C8, amended: for a device that stores a non-null pointer whenever it
reports that it created an object, in every state reached from a state whose
stream buffer slot is null by any sequence of `initDirectSound`,
`closeDirectSound`, `startSound`, `stopSound`, `getPlayAndWriteCursors` and
`copyToSoundBuffer` calls, the stream buffer slot is not null if and only if
some `initDirectSound` call returned `DS_OK` and `closeDirectSound` has not
been called since. -/
theorem stream_slot_invariant (dev : Device) (w : World) (ops : List Op)
    (hdev : dev.HandsOutObjects) (hnull : w.GlobalSoundBuffer = 0) :
    (run dev (w, []) ops).1.GlobalSoundBuffer ≠ 0 ↔
      someInitSucceeded (run dev (w, []) ops).2 = true :=
  run_keeps_invariant dev hdev ops w [] (by simp [hnull, someInitSucceeded])

/-- C8, amended, at a concrete input: a successful and then a failing
`initDirectSound`. -/
theorem stream_slot_invariant_witness :
    (simDevice 1 0 0).HandsOutObjects ∧ (World.start sampleMem).GlobalSoundBuffer = 0 ∧
    ((run (simDevice 1 0 0) (World.start sampleMem, [])
        [.initDirectSound 44100, .initDirectSound 44100]).1.GlobalSoundBuffer ≠ 0 ↔
      someInitSucceeded (run (simDevice 1 0 0) (World.start sampleMem, [])
        [.initDirectSound 44100, .initDirectSound 44100]).2 = true) :=
  ⟨⟨fun _ _ => by simp [simDevice], fun _ _ => by simp [simDevice]⟩, rfl,
    stream_slot_invariant (simDevice 1 0 0) (World.start sampleMem)
      [.initDirectSound 44100, .initDirectSound 44100]
      ⟨fun _ _ => by simp [simDevice], fun _ _ => by simp [simDevice]⟩ rfl⟩

/-- C6: `initDirectSound` runs its steps strictly in order and stops at the
first one that fails.  The steps and their error kinds are those of
`initStepCalls`: load library (1), find entry point (2), create device (3),
set cooperative level (4), create primary buffer (5), set format (6), create
secondary buffer (7); the sixth call passes the primary description, the
eighth the secondary one.  The calls that `initDirectSound` adds to the log
are exactly the first `n` calls of that list, for some `n` from 1 to 8, and the
device accepted every call before the `n`-th.  If the device rejected the
`n`-th call, the error kind is the one of the step of that call, the returned
status is the failing status of that call (`DSERR_GENERIC` for the two library
steps), and the stream buffer slot is as before.  If the device accepted it,
all eight calls were made, the result is `DS_OK` with `NoError`, and the three
slots hold the objects stored by the third call (device), the sixth (primary
buffer) and the eighth (stream buffer).  So `DS_OK` with `NoError` is returned
exactly when all calls of all steps were made and accepted. -/
theorem init_steps_in_order (dev : Device) (w : World) (samplesPerSecond : Nat) :
    (initStepCalls dev w samplesPerSecond).map (fun p => p.1) =
      [.loadLibrary, .findEntryPoint, .createDevice, .setCooperativeLevel,
        .setCooperativeLevel, .createPrimaryBuffer, .setFormat, .createSecondaryBuffer] ∧
    (initStepCalls dev w samplesPerSecond).map (fun p => p.1.errorKind) =
      [1, 2, 3, 4, 4, 5, 6, 7] ∧
    primaryBufferDescription.dwFlags = DSBCAPS_PRIMARYBUFFER ∧
    (secondaryBufferDescription samplesPerSecond).dwFlags ≠ DSBCAPS_PRIMARYBUFFER ∧
    ∃ n, 0 < n ∧ n ≤ 8 ∧
      (initDirectSound dev w samplesPerSecond).world.calls =
        initLog dev w samplesPerSecond n ∧
      (∀ k, 0 < k → k < n → dev.accepts (initLog dev w samplesPerSecond k)) ∧
      (¬ dev.accepts (initLog dev w samplesPerSecond n) →
        ((initStepCalls dev w samplesPerSecond).take n).getLast?.map
            (fun p => p.1.errorKind) =
          some (initDirectSound dev w samplesPerSecond).errorContext ∧
        (initDirectSound dev w samplesPerSecond).errorContext ≠ NoError ∧
        (initDirectSound dev w samplesPerSecond).result =
          dev.status (initLog dev w samplesPerSecond n) ∧
        ¬ SUCCEEDED (initDirectSound dev w samplesPerSecond).result ∧
        (initDirectSound dev w samplesPerSecond).world.GlobalSoundBuffer =
          w.GlobalSoundBuffer) ∧
      (dev.accepts (initLog dev w samplesPerSecond n) →
        n = 8 ∧
        (initDirectSound dev w samplesPerSecond).result = DS_OK ∧
        (initDirectSound dev w samplesPerSecond).errorContext = NoError ∧
        (initDirectSound dev w samplesPerSecond).world.DirectSoundObject =
          (dev.DirectSoundCreate (initLog dev w samplesPerSecond 3)).object ∧
        (initDirectSound dev w samplesPerSecond).world.PrimarySoundBuffer =
          (dev.CreateSoundBuffer (initLog dev w samplesPerSecond 6)).object ∧
        (initDirectSound dev w samplesPerSecond).world.GlobalSoundBuffer =
          (dev.CreateSoundBuffer (initLog dev w samplesPerSecond 8)).object) ∧
      (((initDirectSound dev w samplesPerSecond).result = DS_OK ∧
          (initDirectSound dev w samplesPerSecond).errorContext = NoError) ↔
        (n = 8 ∧ ∀ k, 0 < k → k ≤ 8 → dev.accepts (initLog dev w samplesPerSecond k))) := by
  refine ⟨rfl, rfl, rfl, secondary_flags samplesPerSecond, ?_⟩
  simp only [initDirectSound, initLog, initStepCalls, World.call, List.append_assoc,
    List.singleton_append, List.cons_append, List.nil_append]
  generalize hlib : dev.LoadLibraryA (w.calls ++ [Call.LoadLibraryA "dsound.dll"]) = lib
  generalize hentry : dev.GetProcAddress (w.calls ++ [Call.LoadLibraryA "dsound.dll",
    Call.GetProcAddress lib "DirectSoundCreate"]) = entry
  generalize hds : dev.DirectSoundCreate (w.calls ++ [Call.LoadLibraryA "dsound.dll",
    Call.GetProcAddress lib "DirectSoundCreate", Call.DirectSoundCreate entry 0 0]) = ds
  generalize hhwnd : dev.GetDesktopWindow (w.calls ++ [Call.LoadLibraryA "dsound.dll",
    Call.GetProcAddress lib "DirectSoundCreate", Call.DirectSoundCreate entry 0 0,
    Call.GetDesktopWindow]) = hwnd
  generalize hcoop : dev.SetCooperativeLevel (w.calls ++ [Call.LoadLibraryA "dsound.dll",
    Call.GetProcAddress lib "DirectSoundCreate", Call.DirectSoundCreate entry 0 0,
    Call.GetDesktopWindow, Call.SetCooperativeLevel ds.object hwnd DSSCL_PRIORITY]) = coop
  generalize hpb : dev.CreateSoundBuffer (w.calls ++ [Call.LoadLibraryA "dsound.dll",
    Call.GetProcAddress lib "DirectSoundCreate", Call.DirectSoundCreate entry 0 0,
    Call.GetDesktopWindow, Call.SetCooperativeLevel ds.object hwnd DSSCL_PRIORITY,
    Call.CreateSoundBuffer ds.object primaryBufferDescription 0]) = pb
  generalize hfmt : dev.SetFormat (w.calls ++ [Call.LoadLibraryA "dsound.dll",
    Call.GetProcAddress lib "DirectSoundCreate", Call.DirectSoundCreate entry 0 0,
    Call.GetDesktopWindow, Call.SetCooperativeLevel ds.object hwnd DSSCL_PRIORITY,
    Call.CreateSoundBuffer ds.object primaryBufferDescription 0,
    Call.SetFormat pb.object (waveFormat samplesPerSecond)]) = fmt
  generalize hsb : dev.CreateSoundBuffer (w.calls ++ [Call.LoadLibraryA "dsound.dll",
    Call.GetProcAddress lib "DirectSoundCreate", Call.DirectSoundCreate entry 0 0,
    Call.GetDesktopWindow, Call.SetCooperativeLevel ds.object hwnd DSSCL_PRIORITY,
    Call.CreateSoundBuffer ds.object primaryBufferDescription 0,
    Call.SetFormat pb.object (waveFormat samplesPerSecond),
    Call.CreateSoundBuffer ds.object (secondaryBufferDescription samplesPerSecond) 0]) = sb
  split_ifs with h1 h2 h3 h4 h5 h6 h7
  all_goals first
    | refine ⟨1, by decide, by decide, rfl, ?_, ?_, ?_, ?_⟩
    | refine ⟨2, by decide, by decide, rfl, ?_, ?_, ?_, ?_⟩
    | refine ⟨3, by decide, by decide, rfl, ?_, ?_, ?_, ?_⟩
    | refine ⟨5, by decide, by decide, rfl, ?_, ?_, ?_, ?_⟩
    | refine ⟨6, by decide, by decide, rfl, ?_, ?_, ?_, ?_⟩
    | refine ⟨7, by decide, by decide, rfl, ?_, ?_, ?_, ?_⟩
    | refine ⟨8, by decide, by decide, rfl, ?_, ?_, ?_, ?_⟩
  all_goals first
    | (intro k hk0 hk
       interval_cases k <;> simp [Device.accepts, *])
    | (intro hacc
       simp [Device.accepts, Device.status, InitStep.errorKind, *] at hacc ⊢)
    | (constructor
       · intro h
         first
           | (exfalso
              simp [NoError, DS_OK] at h
              done)
           | (refine ⟨by simp, ?_⟩
              intro k hk0 hk
              interval_cases k <;> simp [Device.accepts, *])
       · rintro ⟨hlen, hall⟩
         first
           | exact ⟨rfl, rfl⟩
           | (simp at hlen
              done)
           | (have h8 := hall 8 (by decide) (by decide)
              simp [Device.accepts, *] at h8))

/-- C1: on a session with a stream buffer, when `Lock` succeeds and returns
regions of `region1Size` and `region2Size` bytes (`DWORD` values) with
`region1Size + region2Size ≤ len`, where the `len` source bytes at `data`
overlap neither region and the regions do not overlap each other, then after
`copyToSoundBuffer` byte `i` of region 1 is source byte `i` for every
`i < region1Size`, byte `j` of region 2 is source byte `region1Size + j` for
every `j < region2Size` (the source position carries over), and every byte of
memory outside the two regions is as before: exactly the
`region1Size + region2Size` bytes of the regions are written. -/
theorem copy_fills_regions (dev : Device) (w : World) (offset data byteCount len : Nat)
    (lk : LockResult) (hinit : w.GlobalSoundBuffer ≠ 0)
    (hlock : dev.Lock (w.calls ++ [Call.Lock w.GlobalSoundBuffer offset byteCount 0]) = lk)
    (hok : SUCCEEDED lk.hr)
    (hsz1 : lk.region1Size < DWORD_MOD) (hsz2 : lk.region2Size < DWORD_MOD)
    (hlen : lk.region1Size + lk.region2Size ≤ len)
    (hs1 : Separate data len lk.region1 lk.region1Size)
    (hs2 : Separate data len lk.region2 lk.region2Size)
    (h12 : Separate lk.region1 lk.region1Size lk.region2 lk.region2Size) :
    (∀ i, i < lk.region1Size →
      (copyToSoundBuffer dev w offset data byteCount).world.mem (lk.region1 + i) =
        w.mem (data + i)) ∧
    (∀ j, j < lk.region2Size →
      (copyToSoundBuffer dev w offset data byteCount).world.mem (lk.region2 + j) =
        w.mem (data + lk.region1Size + j)) ∧
    (∀ a, (∀ i, i < lk.region1Size → a ≠ lk.region1 + i) →
      (∀ j, j < lk.region2Size → a ≠ lk.region2 + j) →
      (copyToSoundBuffer dev w offset data byteCount).world.mem a = w.mem a) :=
  copy_fills_regions_aux dev w offset data byteCount len lk hinit hlock hok hsz1 hsz2 hlen
    hs1 hs2 h12

/-- C1 at a concrete input: 8 bytes at address 100 are copied to offset 12 of a
ring of 16 bytes at address 1000, so region 1 is the last 4 bytes of the ring
and region 2 its first 4 bytes.  Byte 2 of region 2 is source byte 6. -/
theorem copy_fills_regions_witness :
    (copyToSoundBuffer (simDevice 0 0 0) sampleWorld 12 100 8).world.mem (1000 + 2) =
      sampleMem (100 + 4 + 2) :=
  (copy_fills_regions (simDevice 0 0 0) sampleWorld 12 100 8 8 (ringLock 0 1000 16 12 8)
    (by decide) rfl (by decide) (by decide) (by decide) (by decide)
    (by intro i hi j hj; simp [ringLock] at *; omega)
    (by intro i hi j hj; simp [ringLock] at *; omega)
    (by intro i hi j hj; simp [ringLock] at *; omega)).2.1 2 (by decide)

/-- C7: on a session with a stream buffer, when the device rejects `Lock`,
`copyToSoundBuffer` returns the status of `Lock` with error kind `LockFailed`,
leaves memory as it was and logs the `Lock` call only, so `Unlock` is not
called.  When `Lock` succeeds (with `DWORD` sizes), `Unlock` is called with
exactly the two region pointers and sizes that `Lock` returned; if the device
rejects that `Unlock`, `copyToSoundBuffer` returns the status of `Unlock` with
error kind `UnlockFailed`, and the bytes copied into the two regions stay
written (for a source that the regions do not overlap and regions that do not
overlap each other). -/
theorem copy_failures (dev : Device) (w : World) (offset data byteCount len : Nat)
    (lk : LockResult) (hinit : w.GlobalSoundBuffer ≠ 0)
    (hlock : dev.Lock (w.calls ++ [Call.Lock w.GlobalSoundBuffer offset byteCount 0]) = lk) :
    (¬ SUCCEEDED lk.hr →
      (copyToSoundBuffer dev w offset data byteCount).result = lk.hr ∧
      (copyToSoundBuffer dev w offset data byteCount).errorContext = LockFailed ∧
      (copyToSoundBuffer dev w offset data byteCount).world.mem = w.mem ∧
      (copyToSoundBuffer dev w offset data byteCount).world.calls =
        w.calls ++ [Call.Lock w.GlobalSoundBuffer offset byteCount 0]) ∧
    (SUCCEEDED lk.hr → lk.region1Size < DWORD_MOD → lk.region2Size < DWORD_MOD →
      (copyToSoundBuffer dev w offset data byteCount).world.calls =
        w.calls ++ [Call.Lock w.GlobalSoundBuffer offset byteCount 0,
          Call.Unlock w.GlobalSoundBuffer lk.region1 lk.region1Size lk.region2
            lk.region2Size] ∧
      (¬ SUCCEEDED (dev.Unlock (copyToSoundBuffer dev w offset data byteCount).world.calls) →
        (copyToSoundBuffer dev w offset data byteCount).result =
          dev.Unlock (copyToSoundBuffer dev w offset data byteCount).world.calls ∧
        (copyToSoundBuffer dev w offset data byteCount).errorContext = UnlockFailed ∧
        (lk.region1Size + lk.region2Size ≤ len →
          Separate data len lk.region1 lk.region1Size →
          Separate data len lk.region2 lk.region2Size →
          Separate lk.region1 lk.region1Size lk.region2 lk.region2Size →
          (∀ i, i < lk.region1Size →
            (copyToSoundBuffer dev w offset data byteCount).world.mem (lk.region1 + i) =
              w.mem (data + i)) ∧
          (∀ j, j < lk.region2Size →
            (copyToSoundBuffer dev w offset data byteCount).world.mem (lk.region2 + j) =
              w.mem (data + lk.region1Size + j))))) := by
  constructor
  · intro hrej
    have hrej2 : ¬ SUCCEEDED
        (dev.Lock (w.calls ++ [Call.Lock w.GlobalSoundBuffer offset byteCount 0])).hr := by
      rw [hlock]; exact hrej
    simp only [copyToSoundBuffer, World.call, if_neg hinit]
    rw [if_pos hrej2]
    simp [hlock]
  · intro hok hsz1 hsz2
    obtain ⟨hmem, hcalls, hres, herr⟩ :=
      copy_after_lock dev w offset data byteCount lk hinit hlock hok hsz1 hsz2
    refine ⟨hcalls, ?_⟩
    intro hrej
    refine ⟨by rw [hres, if_neg hrej], by rw [herr, if_neg hrej], ?_⟩
    intro hlen hs1 hs2 h12
    rw [hmem]
    exact ⟨(copy_regions_mem w.mem data len _ _ _ _ hlen hs1 hs2 h12).1,
      (copy_regions_mem w.mem data len _ _ _ _ hlen hs1 hs2 h12).2.1⟩

/-- C7 at concrete inputs: a device that rejects `Lock` with status `-5`, and a
device that accepts `Lock` and rejects `Unlock` with status `-7`, after which
byte 2 of region 2 holds source byte 6. -/
theorem copy_failures_witness :
    sampleWorld.GlobalSoundBuffer ≠ 0 ∧
    ((copyToSoundBuffer (simDevice 0 (-5) 0) sampleWorld 12 100 8).result = -5 ∧
      (copyToSoundBuffer (simDevice 0 (-5) 0) sampleWorld 12 100 8).errorContext = LockFailed ∧
      (copyToSoundBuffer (simDevice 0 (-5) 0) sampleWorld 12 100 8).world.calls =
        [Call.Lock 3 12 8 0]) ∧
    ((copyToSoundBuffer (simDevice 0 0 (-7)) sampleWorld 12 100 8).world.calls =
        [Call.Lock 3 12 8 0, Call.Unlock 3 1012 4 1000 4] ∧
      (copyToSoundBuffer (simDevice 0 0 (-7)) sampleWorld 12 100 8).result = -7 ∧
      (copyToSoundBuffer (simDevice 0 0 (-7)) sampleWorld 12 100 8).errorContext =
        UnlockFailed ∧
      (copyToSoundBuffer (simDevice 0 0 (-7)) sampleWorld 12 100 8).world.mem (1000 + 2) =
        sampleMem (100 + 4 + 2)) :=
  have hrejected :=
    (copy_failures (simDevice 0 (-5) 0) sampleWorld 12 100 8 8 (ringLock (-5) 1000 16 12 8)
      (by decide) rfl).1 (by decide)
  have hlocked :=
    (copy_failures (simDevice 0 0 (-7)) sampleWorld 12 100 8 8 (ringLock 0 1000 16 12 8)
      (by decide) rfl).2 (by decide) (by decide) (by decide)
  have hunlock := hlocked.2 (by rw [hlocked.1]; decide)
  ⟨by decide, ⟨hrejected.1, hrejected.2.1, hrejected.2.2.2⟩,
    hlocked.1, by rw [hunlock.1, hlocked.1]; rfl, hunlock.2.1,
    (hunlock.2.2 (by decide)
      (by intro i hi j hj; simp [ringLock] at *; omega)
      (by intro i hi j hj; simp [ringLock] at *; omega)
      (by intro i hi j hj; simp [ringLock] at *; omega)).2 2 (by decide)⟩

/-- C3: let the stream buffer be a ring of `capacity` bytes at address `base`
whose `Lock` succeeds and returns region 1 = bytes `[offset, min (offset +
length) capacity)` and region 2 = bytes `[0, length - region1Size)`
(`ringLock`).  For every `offset < capacity` and `length ≤ capacity` (a
`DWORD`) with `length ≤ len`, where the `len` source bytes at `data` do not
overlap the ring, `copyToSoundBuffer offset data length` leaves byte
`(offset + i) % capacity` of the ring equal to source byte `i` for every
`i < length`, and every other byte of memory unchanged.  In the wrap case
(`offset + length > capacity`) region 1 has `capacity - offset` bytes and
region 2 the remaining `length - (capacity - offset)`; the first source bytes
land at the tail of the ring and the remaining ones at its head.  In the
no-wrap case region 2 is empty and all `length` bytes land in region 1.  This
holds whatever `Unlock` answers, so in particular when `copyToSoundBuffer`
succeeds. -/
theorem ring_copy (dev : Device) (w : World) (offset data length len base capacity : Nat)
    (hr : Int) (hinit : w.GlobalSoundBuffer ≠ 0)
    (hlock : dev.Lock (w.calls ++ [Call.Lock w.GlobalSoundBuffer offset length 0]) =
      ringLock hr base capacity offset length)
    (hok : SUCCEEDED hr) (hoff : offset < capacity) (hcap : length ≤ capacity)
    (hlen : length ≤ len) (hdw : length < DWORD_MOD)
    (hsep : Separate data len base capacity) :
    (∀ i, i < length →
      (copyToSoundBuffer dev w offset data length).world.mem
        (base + (offset + i) % capacity) = w.mem (data + i)) ∧
    (∀ a, (∀ i, i < length → a ≠ base + (offset + i) % capacity) →
      (copyToSoundBuffer dev w offset data length).world.mem a = w.mem a) ∧
    (capacity < offset + length →
      (ringLock hr base capacity offset length).region1Size = capacity - offset ∧
      (ringLock hr base capacity offset length).region2Size = length - (capacity - offset) ∧
      (∀ i, i < capacity - offset →
        (copyToSoundBuffer dev w offset data length).world.mem (base + offset + i) =
          w.mem (data + i)) ∧
      (∀ j, j < length - (capacity - offset) →
        (copyToSoundBuffer dev w offset data length).world.mem (base + j) =
          w.mem (data + (capacity - offset) + j))) ∧
    (offset + length ≤ capacity →
      (ringLock hr base capacity offset length).region1Size = length ∧
      (ringLock hr base capacity offset length).region2Size = 0 ∧
      (∀ i, i < length →
        (copyToSoundBuffer dev w offset data length).world.mem (base + offset + i) =
          w.mem (data + i))) := by
  obtain ⟨n1, hn1⟩ : ∃ n1, n1 = min (offset + length) capacity - offset := ⟨_, rfl⟩
  obtain ⟨n2, hn2⟩ : ∃ n2, n2 = length - n1 := ⟨_, rfl⟩
  have e1 : (ringLock hr base capacity offset length).region1 = base + offset := rfl
  have e2 : (ringLock hr base capacity offset length).region2 = base := rfl
  have e3 : (ringLock hr base capacity offset length).region1Size = n1 := hn1.symm
  have e4 : (ringLock hr base capacity offset length).region2Size = n2 := by
    rw [hn2, hn1]; rfl
  have e5 : (ringLock hr base capacity offset length).hr = hr := rfl
  have hmod : ∀ i, i < length →
      (offset + i) % capacity =
        if offset + i < capacity then offset + i else offset + i - capacity := by
    intro i hi
    by_cases h : offset + i < capacity
    · rw [if_pos h, Nat.mod_eq_of_lt h]
    · rw [if_neg h, Nat.mod_eq_sub_mod (by omega), Nat.mod_eq_of_lt (by omega)]
  simp only [DWORD_MOD] at hdw
  have hcopy := copy_fills_regions_aux dev w offset data length len
    (ringLock hr base capacity offset length) hinit hlock (by rw [e5]; exact hok)
    (by rw [e3]; simp only [DWORD_MOD]; omega) (by rw [e4]; simp only [DWORD_MOD]; omega)
    (by rw [e3, e4]; omega)
    (by
      rw [e1, e3]
      intro i hi j hj
      have := hsep i hi (offset + j) (by omega)
      omega)
    (by
      rw [e2, e4]
      intro i hi j hj
      exact hsep i hi j (by omega))
    (by
      rw [e1, e2, e3, e4]
      intro i hi j hj
      omega)
  rw [e1, e2, e3, e4] at hcopy
  obtain ⟨F1, F2, F3⟩ := hcopy
  refine ⟨?_, ?_, ?_, ?_⟩
  · intro i hi
    rw [hmod i hi]
    by_cases h : offset + i < capacity
    · rw [if_pos h, ← Nat.add_assoc]
      exact F1 i (by omega)
    · rw [if_neg h]
      have := F2 (i - n1) (by omega)
      rw [show base + (offset + i - capacity) = base + (i - n1) by omega,
        show data + i = data + n1 + (i - n1) by omega]
      exact this
  · intro a ha
    apply F3
    · intro i hi
      have := ha i (by omega)
      rw [hmod i (by omega), if_pos (by omega)] at this
      omega
    · intro j hj
      have := ha (n1 + j) (by omega)
      rw [hmod (n1 + j) (by omega), if_neg (by omega)] at this
      omega
  · intro hwrap
    refine ⟨by rw [e3]; omega, by rw [e4]; omega, ?_, ?_⟩
    · intro i hi
      exact F1 i (by omega)
    · intro j hj
      have := F2 j (by omega)
      rw [show data + (capacity - offset) + j = data + n1 + j by omega]
      exact this
  · intro hfit
    refine ⟨by rw [e3]; omega, by rw [e4]; omega, ?_⟩
    intro i hi
    exact F1 i (by omega)

/-- C3 at a concrete input: 8 bytes at address 100 go to offset 12 of a ring of
16 bytes at address 1000; source byte 6 lands at byte `(12 + 6) % 16 = 2` of
the ring. -/
theorem ring_copy_witness :
    (copyToSoundBuffer (simDevice 0 0 0) sampleWorld 12 100 8).world.mem
      (1000 + (12 + 6) % 16) = sampleMem (100 + 6) :=
  (ring_copy (simDevice 0 0 0) sampleWorld 12 100 8 8 1000 16 0 (by decide) rfl
    (by decide) (by decide) (by decide) (by decide) (by decide)
    (by intro i hi j hj; omega)).1 6 (by decide)

end DSound
